import Mathlib

/-!
Shallow embedding of `src/libsync/propagateuploadencrypted.cpp`
(class `OCC::PropagateUploadEncrypted`).

The class is a signal/slot driven coordinator for uploading one file into an
end-to-end-encrypted folder.  Each slot of the class is embedded as a pure
function from the task state (the member variables of the object) to a new
state together with the list of observable external actions it performs
(jobs started, timers scheduled, signals emitted).  The environment's
responses — signals from the network jobs and the retry timer — are embedded
as an `Event` type, and `step` dispatches an event to the slot that the
source connects it to.  A run of the task is a fold of `step` over a list of
events.
-/

namespace OCC

/-- Path component splitting on the character used by the source
(`QDir::separator()` / the literal / used by `QString::section` and the
remote paths).  Auxiliary recursion over the character list. -/
def splitOnSlashAux : List Char → List Char → List (List Char)
  | [], acc => [acc.reverse]
  | c :: cs, acc =>
      if c = '/' then acc.reverse :: splitOnSlashAux cs []
      else splitOnSlashAux cs (c :: acc)

/-- Split a path into its slash-separated components. -/
def splitOnSlash (s : String) : List String :=
  (splitOnSlashAux s.data []).map (fun l => String.mk l)

/-- Join components with /. -/
def joinSlash : List String → String
  | [] => ""
  | [s] => s
  | s :: rest => s ++ "/" ++ joinSlash rest

/-- `QFileInfo::fileName()`: the last slash-separated component of a path. -/
def fileNamePart (s : String) : String :=
  (splitOnSlash s).getLastD ""

/-- `QFileInfo::path()`: everything before the file name, "." when the path
has a single component. -/
def qtPath (s : String) : String :=
  let parts := splitOnSlash s
  if parts.length ≤ 1 then "." else joinSlash parts.dropLast

/-- `QString::section(QLatin1Char('/'), 0, -2)`: all components but the
last, joined by /; empty when the path has a single component. -/
def sectionUpToParent (s : String) : String :=
  joinSlash (splitOnSlash s).dropLast

/-- Models `QDir::tempPath()`, an environment value the source uses as the
directory of the ciphertext output file. -/
def tempPath : String := "/tmp"

/-- One record of the folder metadata document (struct `EncryptedFile` of
clientsideencryption.h).  A default-constructed record has empty strings and
zero numeric fields, as in C++.  Byte arrays are modelled as strings. -/
structure EncryptedFile where
  encryptedFilename : String := ""
  originalFilename : String := ""
  encryptionKey : String := ""
  initializationVector : String := ""
  authenticationTag : String := ""
  mimetype : String := ""
  fileVersion : Int := 0
  metadataKey : Int := 0
deriving Repr, DecidableEq

/-- Modelled from the spec: `FolderMetadata::addEncryptedFile` lives in
clientsideencryption.cpp, which is not part of the sources here; the spec
(section 3) says the mutated record "becomes part of the document" once it is
merged or appended.  Modelled as appending the record to the document's
record list. -/
def addEncryptedFile (files : List EncryptedFile) (f : EncryptedFile) :
    List EncryptedFile :=
  files ++ [f]

/-- The member variables of `PropagateUploadEncrypted` that the translated
slots read or write.  `itemFile` is `_item->_file` (the remote-relative path
of the file being uploaded).  `currentLockingInProgress` is the
`_currentLockingInProgress` flag; its initial value `false` is

Modelled from the spec: the field's initializer sits in
propagateuploadencrypted.h, which is not among the sources here; the spec's
glossary describes the in-flight marker as distinguishing "a live retry
chain from one whose task has already concluded", and section 3 has the flag
created only once lock attempts begin, so before any lock event it is unset.
`folderToken` and `folderId` are the `_folderToken` / `_folderId` byte
arrays (empty when default constructed); `lockClockStarted` records that
`_folderLockFirstTry.start()` ran; `metadataFiles` is the record list held
by `_metadata` after the merge; `encryptedFile` is `_encryptedFile`;
`completeFileName` is `_completeFileName`. -/
structure UploadState where
  itemFile : String
  currentLockingInProgress : Bool := false
  folderToken : String := ""
  folderId : String := ""
  lockClockStarted : Bool := false
  metadataFiles : Option (List EncryptedFile) := none
  encryptedFile : Option EncryptedFile := none
  completeFileName : String := ""
deriving Repr, DecidableEq

/-- The state of a freshly constructed `PropagateUploadEncrypted` for a
given item. -/
def initialState (itemFile : String) : UploadState :=
  { itemFile := itemFile }

/-- Observable external actions of the coordinator: jobs it constructs and
starts, the retry timer it schedules, and the signals it emits.
`startUnlockJob` mirrors `UnlockEncryptFolderApiJob`, the job an unlock
request would start. -/
inductive Action where
  | startGetEncryptStatus (folderPath : String)
  | startLsCol (folder : String)
  | startLockClock
  | startLockJob (fileId : String)
  | startGetMetadata (folderId : String)
  | fileEncryption (key iv : String)
  | startUpdateMetadata (folderId : String) (files : List EncryptedFile) (token : String)
  | startUnlockJob (fileId token : String)
  | scheduleRetryTimer (delayMs : Nat) (fileId : String)
  | folerNotEncrypted
  | emitFinalized (localPath remotePath : String) (size : Nat)
deriving Repr, DecidableEq

/-- True for the calls the task must not make for a non-encrypted folder:
the folder-id listing, lock requests, metadata fetch/update and the
encryption primitive. -/
def isProtectedCall : Action → Bool
  | .startLsCol _ => true
  | .startLockJob _ => true
  | .startGetMetadata _ => true
  | .fileEncryption _ _ => true
  | .startUpdateMetadata _ _ _ => true
  | .startUnlockJob _ _ => true
  | _ => false

/-- True exactly for an unlock request. -/
def isStartUnlock : Action → Bool
  | .startUnlockJob _ _ => true
  | _ => false

/-- `PropagateUploadEncrypted::start` (lines 26-50): builds
`QFileInfo info(_item->_file)` and starts a `GetFolderEncryptStatusJob` on
`info.path()`. -/
def start (st : UploadState) : UploadState × List Action :=
  (st, [Action.startGetEncryptStatus (qtPath st.itemFile)])

/-- `slotFolderEncryptedStatusFetched` (lines 52-68): when the folder is
encrypted, starts an `LsColJob` on the folder restricted to resourcetype and
fileid; otherwise emits `folerNotEncrypted`. -/
def slotFolderEncryptedStatusFetched (st : UploadState) (folder : String)
    (isEncrypted : Bool) : UploadState × List Action :=
  if isEncrypted then
    (st, [Action.startLsCol folder])
  else
    (st, [Action.folerNotEncrypted])

/-- `slotTryLock` (lines 90-96): starts a `LockEncryptFolderApiJob` on the
file id. -/
def slotTryLock (st : UploadState) (fileId : String) :
    UploadState × List Action :=
  (st, [Action.startLockJob fileId])

/-- `slotFolderEncryptedIdReceived` (lines 81-88): takes `list.first()`,
looks its folder info up in the job's `_folderInfos`, starts the
`_folderLockFirstTry` clock and calls `slotTryLock` with that entry's file
id.  `folderInfos` maps a listed path to its file id (`.value` of a missing
key default-constructs, i.e. yields the empty id). -/
def slotFolderEncryptedIdReceived (st : UploadState) (listFirst : String)
    (listRest : List String) (folderInfos : String → String) :
    UploadState × List Action :=
  let fileId := folderInfos listFirst
  let st' := { st with lockClockStarted := true }
  let tryRes := slotTryLock st' fileId
  (tryRes.1, Action.startLockClock :: tryRes.2)

/-- `slotFolderLockedSuccessfully` (lines 98-110): sets
`_currentLockingInProgress = true`, stores the token and folder id, and
starts a `GetMetadataApiJob` on the folder id. -/
def slotFolderLockedSuccessfully (st : UploadState) (fileId token : String) :
    UploadState × List Action :=
  let st' := { st with currentLockingInProgress := true,
                       folderToken := token, folderId := fileId }
  (st', [Action.startGetMetadata st'.folderId])

/-- The merge of lines 119-141 of `slotFolderEncriptedMetadataReceived`:
a default-constructed record, overwritten by every record of the document
whose `originalFilename` equals `_item->_file` (so the last match wins),
then fresh key and initialization vector, and — only when the resulting
`encryptedFilename` is empty — a fresh random filename, version 1,
metadata key 1, `originalFilename = info.fileName()` and the mimetype the
`QMimeDatabase` infers for the source file (`srcMime`). -/
def mergeRecord (files : List EncryptedFile) (itemFile : String)
    (freshKey freshIV freshName srcMime : String) : EncryptedFile :=
  let encryptedFile : EncryptedFile :=
    files.foldl (fun acc f => if f.originalFilename = itemFile then f else acc) {}
  let encryptedFile :=
    { encryptedFile with encryptionKey := freshKey,
                         initializationVector := freshIV }
  if encryptedFile.encryptedFilename = "" then
    { encryptedFile with encryptedFilename := freshName, fileVersion := 1,
                         metadataKey := 1,
                         originalFilename := fileNamePart itemFile,
                         mimetype := srcMime }
  else encryptedFile

/-- The fold of the merge loop on its own, for stating properties: the last
record of the document whose `originalFilename` equals the item's file, a
default-constructed record when none matches. -/
def lastMatch (files : List EncryptedFile) (itemFile : String) :
    EncryptedFile :=
  files.foldl (fun acc f => if f.originalFilename = itemFile then f else acc) {}

/-- `slotFolderEncriptedMetadataReceived` (lines 112-173): parses the
metadata (`files` is the parsed record list, an external parse), merges the
record for this item, invokes `EncryptionHelper::fileEncryption` on the
freshly generated key and IV writing to a temp file (the primitive's success
`encryptionSucceeded` and its output `tag` are environment results; the
source inspects no success result), records `_completeFileName`, assigns
`encryptedFile.authenticationTag = tag`, adds the record to the metadata
document, stores `_encryptedFile`, and starts an `UpdateMetadataApiJob` with
the folder id, the updated document and the folder token. -/
def slotFolderEncriptedMetadataReceived (st : UploadState)
    (files : List EncryptedFile) (statusCode : Int)
    (freshKey freshIV freshName srcMime : String)
    (encryptionSucceeded : Bool) (tag : String) :
    UploadState × List Action :=
  let encryptedFile := mergeRecord files st.itemFile freshKey freshIV freshName srcMime
  let outputName := tempPath ++ "/" ++ encryptedFile.encryptedFilename
  let st' := { st with completeFileName := outputName }
  let encryptedFile' := { encryptedFile with authenticationTag := tag }
  let newFiles := addEncryptedFile files encryptedFile'
  let st'' := { st' with metadataFiles := some newFiles,
                         encryptedFile := some encryptedFile' }
  (st'', [Action.fileEncryption encryptedFile.encryptionKey
            encryptedFile.initializationVector,
          Action.startUpdateMetadata st.folderId newFiles st.folderToken])

/-- `slotUpdateMetadataSuccess` (lines 175-185): reads
`QFileInfo outputInfo(_completeFileName)` (its size is external filesystem
state, passed as `ciphertextSize`) and emits `finalized` with the local
ciphertext path, the remote path `_item->_file.section('/',0,-2)` plus the
output file name, and the size.  No other action is performed. -/
def slotUpdateMetadataSuccess (st : UploadState) (fileId : String)
    (ciphertextSize : Nat) : UploadState × List Action :=
  (st, [Action.emitFinalized
          (qtPath st.completeFileName ++ "/" ++ fileNamePart st.completeFileName)
          (sectionUpToParent st.itemFile ++ "/" ++ fileNamePart st.completeFileName)
          ciphertextSize])

/-- `slotUpdateMetadataError` (lines 187-190): only logs. -/
def slotUpdateMetadataError (st : UploadState) (fileId : String)
    (httpErrorResponse : Int) : UploadState × List Action :=
  (st, [])

/-- `slotUnlockEncryptedFolderSuccess` (lines 192-195): only logs.  Nothing
in the source connects to it or starts an unlock job. -/
def slotUnlockEncryptedFolderSuccess (st : UploadState) (fileId : String) :
    UploadState × List Action :=
  (st, [])

/-- `slotUnlockEncryptedFolderError` (lines 197-200): only logs. -/
def slotUnlockEncryptedFolderError (st : UploadState) (fileId : String)
    (httpStatusCode : Int) : UploadState × List Action :=
  (st, [])

/-- `slotFolderLockedError` (lines 202-223): schedules a single
`QTimer::singleShot(5000, ...)` capturing the file id; the body of the timer
is `folderLockedRetryTimerFired` below. -/
def slotFolderLockedError (st : UploadState) (fileId : String)
    (httpErrorCode : Int) : UploadState × List Action :=
  (st, [Action.scheduleRetryTimer 5000 fileId])

/-- The lambda of lines 206-220, run when the 5 s timer fires: returns
without action when `_currentLockingInProgress` is not set; returns without
action when `_folderLockFirstTry.elapsed()` exceeds five minutes
(`1000 * 60 * 5` ms); otherwise calls `slotTryLock` on the captured file
id.  `elapsedMs` is the elapsed-clock reading at fire time. -/
def folderLockedRetryTimerFired (st : UploadState) (fileId : String)
    (elapsedMs : Nat) : UploadState × List Action :=
  if !st.currentLockingInProgress then (st, [])
  else if elapsedMs > 1000 * 60 * 5 then (st, [])
  else slotTryLock st fileId

/-- `slotFolderEncryptedIdError` (lines 225-228): only logs. -/
def slotFolderEncryptedIdError (st : UploadState) :
    UploadState × List Action :=
  (st, [])

/-- `slotFolderEncryptedStatusError` (lines 230-233): only logs. -/
def slotFolderEncryptedStatusError (st : UploadState) (error : Int) :
    UploadState × List Action :=
  (st, [])

/-- Environment responses delivered to the task: each constructor is a
signal (or the retry timer) the source connects to a slot, carrying the
values the environment supplies. -/
inductive Event where
  | statusFetched (folder : String) (isEncrypted : Bool)
  | statusError (error : Int)
  | idReceived (listFirst : String) (listRest : List String)
      (folderInfos : String → String)
  | idError
  | lockSuccess (fileId token : String)
  | lockError (fileId : String) (httpErrorCode : Int)
  | retryTimerFired (fileId : String) (elapsedMs : Nat)
  | metadataReceived (files : List EncryptedFile) (statusCode : Int)
      (freshKey freshIV freshName srcMime : String)
      (encryptionSucceeded : Bool) (tag : String)
  | updateSuccess (fileId : String) (ciphertextSize : Nat)
  | updateError (fileId : String) (httpErrorCode : Int)

/-- True exactly for a successful lock response. -/
def isLockSuccess : Event → Bool
  | .lockSuccess _ _ => true
  | _ => false

/-- Dispatch of an environment response to the slot the source connects it
to. -/
def step (st : UploadState) : Event → UploadState × List Action
  | .statusFetched folder isEncrypted =>
      slotFolderEncryptedStatusFetched st folder isEncrypted
  | .statusError error => slotFolderEncryptedStatusError st error
  | .idReceived listFirst listRest folderInfos =>
      slotFolderEncryptedIdReceived st listFirst listRest folderInfos
  | .idError => slotFolderEncryptedIdError st
  | .lockSuccess fileId token => slotFolderLockedSuccessfully st fileId token
  | .lockError fileId code => slotFolderLockedError st fileId code
  | .retryTimerFired fileId elapsedMs =>
      folderLockedRetryTimerFired st fileId elapsedMs
  | .metadataReceived files statusCode k iv nm mime ok tag =>
      slotFolderEncriptedMetadataReceived st files statusCode k iv nm mime ok tag
  | .updateSuccess fileId size => slotUpdateMetadataSuccess st fileId size
  | .updateError fileId code => slotUpdateMetadataError st fileId code

/-- Fold of `step` over a list of environment responses, collecting the
actions in order. -/
def run (st : UploadState) : List Event → UploadState × List Action
  | [] => (st, [])
  | e :: es =>
      ((run (step st e).1 es).1, (step st e).2 ++ (run (step st e).1 es).2)

/-- A whole task: construct the object for the item, call `start`, then let
the environment's responses drive the slots. -/
def runTask (itemFile : String) (events : List Event) :
    UploadState × List Action :=
  ((run (start (initialState itemFile)).1 events).1,
   (start (initialState itemFile)).2 ++
     (run (start (initialState itemFile)).1 events).2)

end OCC

namespace OCC

/-- The marker `_currentLockingInProgress` after one dispatched event: it is
exactly the old marker or-ed with "the event was a successful lock
response" — no slot ever clears it. -/
lemma stepMarkerEq (st : UploadState) (e : Event) :
    (step st e).1.currentLockingInProgress
      = (st.currentLockingInProgress || isLockSuccess e) := by
  cases e with
  | statusFetched folder isEncrypted =>
      cases isEncrypted <;>
        simp [step, slotFolderEncryptedStatusFetched, isLockSuccess]
  | statusError error =>
      simp [step, slotFolderEncryptedStatusError, isLockSuccess]
  | idReceived a b c =>
      simp [step, slotFolderEncryptedIdReceived, slotTryLock, isLockSuccess]
  | idError => simp [step, slotFolderEncryptedIdError, isLockSuccess]
  | lockSuccess f t =>
      simp [step, slotFolderLockedSuccessfully, isLockSuccess]
  | lockError f c => simp [step, slotFolderLockedError, isLockSuccess]
  | retryTimerFired f el =>
      simp only [step, folderLockedRetryTimerFired, isLockSuccess]
      split
      · simp
      · split <;> simp [slotTryLock]
  | metadataReceived files sc k iv nm mime ok tag =>
      simp [step, slotFolderEncriptedMetadataReceived, isLockSuccess]
  | updateSuccess f s => simp [step, slotUpdateMetadataSuccess, isLockSuccess]
  | updateError f c => simp [step, slotUpdateMetadataError, isLockSuccess]

/-- A run whose events hold no successful lock response leaves the marker
false when it started false. -/
lemma runMarkerFalse (events : List Event) (st : UploadState)
    (h : st.currentLockingInProgress = false)
    (hall : (events.all fun e => !isLockSuccess e) = true) :
    (run st events).1.currentLockingInProgress = false := by
  induction events generalizing st with
  | nil => simpa [run] using h
  | cons e es ih =>
      simp only [List.all_cons, Bool.and_eq_true] at hall
      have h1 : (step st e).1.currentLockingInProgress = false := by
        rw [stepMarkerEq, h]
        simpa using hall.1
      exact ih (step st e).1 h1 hall.2

end OCC

namespace OCC

/-- A concrete run in which the lock is acquired, the metadata is merged and
the write-back succeeds. -/
def heldRunOkEvents : List Event :=
  [Event.statusFetched "d" true,
   Event.idReceived "d" [] (fun _ => "fid"),
   Event.lockSuccess "fid" "tok",
   Event.metadataReceived [] 200 "key1" "iv1" "encname"
     "application/pdf" true "tag1",
   Event.updateSuccess "fid" 42]

/-- The same run up to the write-back, which fails with HTTP 409. -/
def heldRunErrEvents : List Event :=
  [Event.statusFetched "d" true,
   Event.idReceived "d" [] (fun _ => "fid"),
   Event.lockSuccess "fid" "tok",
   Event.metadataReceived [] 200 "key1" "iv1" "encname"
     "application/pdf" true "tag1",
   Event.updateError "fid" 409]

/-- C1: the claim asks that every terminal path that passed through the Held
lock state issue an unlock request with the stored token.  The code does
not: on a run that locks successfully ("Held", token stored), updates the
metadata and receives the write-back success, the `finalized` signal is
emitted while no unlock request is ever started; and on the
metadata-write-error path the slot performs no action at all, so again no
unlock request is issued. -/
theorem heldLockNeverUnlocked :
    (runTask "d/report.pdf" heldRunOkEvents).1.folderToken = "tok" ∧
    Action.emitFinalized "/tmp/encname" "d/encname" 42
      ∈ (runTask "d/report.pdf" heldRunOkEvents).2 ∧
    ((runTask "d/report.pdf" heldRunOkEvents).2.all
        fun a => !isStartUnlock a) = true ∧
    (runTask "d/report.pdf" heldRunErrEvents).1.folderToken = "tok" ∧
    ((runTask "d/report.pdf" heldRunErrEvents).2.all
        fun a => !isStartUnlock a) = true := by
  decide

/-- C2 counterexample: at an elapsed time of exactly five minutes — not
below the five-minute ceiling — the fired retry timer still issues a new
lock request, because the source only returns when `elapsed()` is strictly
greater than `1000 * 60 * 5`. -/
theorem retryIssuedAtExactFiveMinutes :
    (folderLockedRetryTimerFired
        { itemFile := "d/report.pdf", currentLockingInProgress := true }
        "fid" (1000 * 60 * 5)).2 = [Action.startLockJob "fid"] ∧
    ¬ ((1000 * 60 * 5 : Nat) < 1000 * 60 * 5) := by
  decide

/-- C2 (amended): every lock-request failure schedules exactly one delayed
re-attempt with a fixed 5000 ms delay, and the fired timer issues a new lock
request exactly when the in-flight marker is set and the elapsed time is at
most (rather than strictly below) the five-minute ceiling; in every other
case it performs nothing and schedules nothing further. -/
theorem lockErrorSchedulesSingleRetryAndGuardedRefire
    (st : UploadState) (fileId : String) (httpErrorCode : Int)
    (elapsedMs : Nat) :
    slotFolderLockedError st fileId httpErrorCode
      = (st, [Action.scheduleRetryTimer 5000 fileId]) ∧
    folderLockedRetryTimerFired st fileId elapsedMs
      = (st, if st.currentLockingInProgress = true ∧ elapsedMs ≤ 1000 * 60 * 5
             then [Action.startLockJob fileId] else []) := by
  refine ⟨rfl, ?_⟩
  unfold folderLockedRetryTimerFired slotTryLock
  by_cases h1 : st.currentLockingInProgress
  · by_cases h2 : elapsedMs ≤ 1000 * 60 * 5
    · simp [h1, h2, Nat.not_lt.mpr h2]
    · simp [h1, h2, Nat.lt_of_not_le h2]
  · simp [h1]

/-- A concrete run whose first (and only) lock attempt fails. -/
def failedLockRunEvents : List Event :=
  [Event.statusFetched "d" true,
   Event.idReceived "d" [] (fun _ => "fid"),
   Event.lockError "fid" 423]

/-- C3: the claim (spec scenario C) asks that a task whose first lock
attempt fails be retried by the scheduled timer while within the five-minute
budget.  The code aborts instead: after the first lock failure the 5 s timer
was scheduled, the in-flight marker is still false (it is only ever set on a
lock success), so when the timer fires at 5000 ms — well within the budget —
the body returns without issuing any lock request, and a third attempt can
never happen. -/
theorem failedFirstLockRetryAborts :
    Action.scheduleRetryTimer 5000 "fid"
      ∈ (runTask "d/report.pdf" failedLockRunEvents).2 ∧
    (runTask "d/report.pdf" failedLockRunEvents).1.currentLockingInProgress
      = false ∧
    (step (runTask "d/report.pdf" failedLockRunEvents).1
        (Event.retryTimerFired "fid" 5000)).2 = [] ∧
    5000 < 1000 * 60 * 5 := by
  decide

/-- C4: the claim asks that terminal failures of the status check, the
folder-id resolution and the metadata write-back be reported to the caller.
The three error slots of the code return without performing any action —
they only log — so each of these failures is swallowed with no signal. -/
theorem terminalErrorSlotsEmitNoSignal (st : UploadState) (error : Int)
    (fileId : String) (httpErrorResponse : Int) :
    slotFolderEncryptedStatusError st error = (st, []) ∧
    slotFolderEncryptedIdError st = (st, []) ∧
    slotUpdateMetadataError st fileId httpErrorResponse = (st, []) :=
  ⟨rfl, rfl, rfl⟩

end OCC

namespace OCC

/-- C5: on every run of the metadata slot, the record for the current file
carries the authentication tag obtained from the encryption primitive: the
tag is stored in the record before the record is added to the metadata
document and before the update request is started, so the submitted document
holds the record together with its tag, and the stored `_encryptedFile`
equals that record. -/
theorem writeBackRecordCarriesTag (st : UploadState)
    (files : List EncryptedFile) (statusCode : Int)
    (freshKey freshIV freshName srcMime tag : String)
    (encryptionSucceeded : Bool) :
    ∃ rec : EncryptedFile,
      rec.authenticationTag = tag ∧
      (slotFolderEncriptedMetadataReceived st files statusCode freshKey
          freshIV freshName srcMime encryptionSucceeded tag).1.encryptedFile
        = some rec ∧
      (slotFolderEncriptedMetadataReceived st files statusCode freshKey
          freshIV freshName srcMime encryptionSucceeded tag).2
        = [Action.fileEncryption rec.encryptionKey rec.initializationVector,
           Action.startUpdateMetadata st.folderId (addEncryptedFile files rec)
             st.folderToken] :=
  ⟨{ mergeRecord files st.itemFile freshKey freshIV freshName srcMime with
       authenticationTag := tag }, rfl, rfl, rfl⟩

/-- The merge of the metadata slot, written as a find-or-create on the last
matching record: identity fields of a matched record with a nonempty
encrypted filename are kept, everything else is synthesized. -/
lemma mergeRecord_eq (files : List EncryptedFile)
    (itemFile freshKey freshIV freshName srcMime : String) :
    mergeRecord files itemFile freshKey freshIV freshName srcMime
      = if (lastMatch files itemFile).encryptedFilename = ""
        then { lastMatch files itemFile with
                 encryptionKey := freshKey, initializationVector := freshIV,
                 encryptedFilename := freshName, fileVersion := 1,
                 metadataKey := 1, originalFilename := fileNamePart itemFile,
                 mimetype := srcMime }
        else { lastMatch files itemFile with
                 encryptionKey := freshKey,
                 initializationVector := freshIV } := rfl

/-- C6 counterexample: a document holding a record whose `originalFilename`
equals the task's file name but whose `encryptedFilename` is empty.  The
record is found by the scan, yet its identity fields are not reused: the
merge synthesizes a fresh filename, version 1 and an inferred mimetype,
because the source branches on the emptiness of `encryptedFilename`, not on
whether a match was found. -/
theorem matchedRecordWithEmptyFilenameNotReused :
    (([({ originalFilename := "report.pdf", encryptedFilename := "",
          mimetype := "application/pdf", fileVersion := 7,
          metadataKey := 3 } : EncryptedFile)].any
        fun f => f.originalFilename == "report.pdf") = true) ∧
    (mergeRecord
        [({ originalFilename := "report.pdf", encryptedFilename := "",
            mimetype := "application/pdf", fileVersion := 7,
            metadataKey := 3 } : EncryptedFile)]
        "report.pdf" "k" "i" "fresh20" "text/plain").fileVersion = 1 ∧
    (mergeRecord
        [({ originalFilename := "report.pdf", encryptedFilename := "",
            mimetype := "application/pdf", fileVersion := 7,
            metadataKey := 3 } : EncryptedFile)]
        "report.pdf" "k" "i" "fresh20" "text/plain").mimetype
      = "text/plain" ∧
    (mergeRecord
        [({ originalFilename := "report.pdf", encryptedFilename := "",
            mimetype := "application/pdf", fileVersion := 7,
            metadataKey := 3 } : EncryptedFile)]
        "report.pdf" "k" "i" "fresh20" "text/plain").encryptedFilename
      = "fresh20" := by
  decide

/-- C6 (amended): when the last record matched by `originalFilename` has a
nonempty `encryptedFilename`, its identity fields (encrypted filename,
mimetype, file version — and every other field) are reused and only the
encryption key and initialization vector are regenerated by the merge (the
authentication tag is then regenerated by the surrounding slot); when no
record matches, or the matched record's `encryptedFilename` is empty, a new
record is synthesized with the fresh random encrypted filename, the mimetype
inferred for the source file, version 1 and metadata key 1. -/
theorem mergeReusesOrSynthesizes (files : List EncryptedFile)
    (itemFile freshKey freshIV freshName srcMime : String) :
    ((lastMatch files itemFile).encryptedFilename ≠ "" →
       mergeRecord files itemFile freshKey freshIV freshName srcMime
         = { lastMatch files itemFile with
               encryptionKey := freshKey, initializationVector := freshIV }) ∧
    ((lastMatch files itemFile).encryptedFilename = "" →
       mergeRecord files itemFile freshKey freshIV freshName srcMime
         = { lastMatch files itemFile with
               encryptionKey := freshKey, initializationVector := freshIV,
               encryptedFilename := freshName, fileVersion := 1,
               metadataKey := 1, originalFilename := fileNamePart itemFile,
               mimetype := srcMime }) := by
  constructor
  · intro h
    rw [mergeRecord_eq, if_neg h]
  · intro h
    rw [mergeRecord_eq, if_pos h]

/-- Witness for C6: a concrete document with a prior record "xyz123" for
"report.pdf" reuses that record wholesale with fresh key material, and an
empty document yields a fully synthesized record. -/
theorem mergeReusesOrSynthesizes_witness :
    mergeRecord
        [({ originalFilename := "report.pdf", encryptedFilename := "xyz123",
            mimetype := "application/pdf", fileVersion := 3,
            metadataKey := 1 } : EncryptedFile)]
        "report.pdf" "k2" "i2" "fresh" "text/plain"
      = { lastMatch
            [({ originalFilename := "report.pdf",
                encryptedFilename := "xyz123",
                mimetype := "application/pdf", fileVersion := 3,
                metadataKey := 1 } : EncryptedFile)] "report.pdf" with
            encryptionKey := "k2", initializationVector := "i2" } ∧
    mergeRecord [] "report.pdf" "k2" "i2" "fresh" "text/plain"
      = { lastMatch [] "report.pdf" with
            encryptionKey := "k2", initializationVector := "i2",
            encryptedFilename := "fresh", fileVersion := 1, metadataKey := 1,
            originalFilename := fileNamePart "report.pdf",
            mimetype := "text/plain" } :=
  ⟨(mergeReusesOrSynthesizes
      [({ originalFilename := "report.pdf", encryptedFilename := "xyz123",
          mimetype := "application/pdf", fileVersion := 3,
          metadataKey := 1 } : EncryptedFile)]
      "report.pdf" "k2" "i2" "fresh" "text/plain").1 (by decide),
   (mergeReusesOrSynthesizes [] "report.pdf" "k2" "i2" "fresh"
      "text/plain").2 (by decide)⟩

/-- C7: when the encryption-status check reports the folder as not
encrypted, the task emits only the `folerNotEncrypted` signal after the
initial status request, and the whole run performs no folder-id listing,
lock, metadata or encryption call. -/
theorem notEncryptedSignalsOnly (itemFile folder : String) :
    (runTask itemFile [Event.statusFetched folder false]).2
      = [Action.startGetEncryptStatus (qtPath itemFile),
         Action.folerNotEncrypted] ∧
    ((runTask itemFile [Event.statusFetched folder false]).2.all
        fun a => !isProtectedCall a) = true :=
  ⟨rfl, rfl⟩

/-- C8: the claim asks that an encryption-step failure terminate the task
without submitting the metadata update.  The code never inspects the
primitive's outcome: the slot's result is identical for a failed and a
successful encryption, and in both cases the metadata update request is
started. -/
theorem encryptionOutcomeIgnoredStillSubmits (st : UploadState)
    (files : List EncryptedFile) (statusCode : Int)
    (freshKey freshIV freshName srcMime tag : String) :
    slotFolderEncriptedMetadataReceived st files statusCode freshKey freshIV
        freshName srcMime false tag
      = slotFolderEncriptedMetadataReceived st files statusCode freshKey
          freshIV freshName srcMime true tag ∧
    ∃ rec : EncryptedFile,
      (slotFolderEncriptedMetadataReceived st files statusCode freshKey
          freshIV freshName srcMime false tag).2
        = [Action.fileEncryption rec.encryptionKey rec.initializationVector,
           Action.startUpdateMetadata st.folderId (addEncryptedFile files rec)
             st.folderToken] :=
  ⟨rfl,
   ⟨{ mergeRecord files st.itemFile freshKey freshIV freshName srcMime with
        authenticationTag := tag }, rfl⟩⟩

/-- C9 counterexample: the listing was requested for "folderB" (the LsCol
action in the trace), yet because the slot takes `list.first()` the lock
request is issued for the file id of "folderA", the first listed entry,
which differs from the file id of the queried path. -/
theorem idResolutionTakesFirstEntryNotQueried :
    (runTask "folderB/report.pdf"
        [Event.statusFetched "folderB" true,
         Event.idReceived "folderA" ["folderB"]
           (fun p => if p == "folderA" then "id-A" else "id-B")]).2
      = [Action.startGetEncryptStatus "folderB",
         Action.startLsCol "folderB",
         Action.startLockClock, Action.startLockJob "id-A"] ∧
    (fun p => if p == "folderA" then "id-A" else "id-B") "folderB"
      = "id-B" ∧
    "id-A" ≠ "id-B" := by
  decide

/-- C9 (amended): on receiving the folder listing, the resolver extracts the
file id of the first entry of the listing — without checking that this entry
is the path that was queried, and without any error handling for its absence
(a missing entry just yields the default empty id from the lookup) — and it
starts the lock-attempt clock before issuing the first lock request. -/
theorem idReceivedLocksFirstEntryAfterClock (st : UploadState)
    (listFirst : String) (listRest : List String)
    (folderInfos : String → String) :
    slotFolderEncryptedIdReceived st listFirst listRest folderInfos
      = ({ st with lockClockStarted := true },
         [Action.startLockClock,
          Action.startLockJob (folderInfos listFirst)]) := rfl

/-- C10: the in-flight marker `_currentLockingInProgress` starts false, is
set exactly by a successful lock response and is never cleared by any event;
hence a retry timer that fires on a run containing no successful lock always
aborts without issuing a lock request, and once the marker is set the
marker check never stops a retry that is within the five-minute budget. -/
theorem lockMarkerMonotoneFromFalse :
    (∀ itemFile : String,
        (initialState itemFile).currentLockingInProgress = false) ∧
    (∀ (st : UploadState) (e : Event),
        (step st e).1.currentLockingInProgress
          = (st.currentLockingInProgress || isLockSuccess e)) ∧
    (∀ (itemFile : String) (events : List Event),
        (events.all fun e => !isLockSuccess e) = true →
        ∀ (fileId : String) (elapsedMs : Nat),
          (step (runTask itemFile events).1
              (Event.retryTimerFired fileId elapsedMs)).2 = []) ∧
    (∀ (st : UploadState) (fileId : String) (elapsedMs : Nat),
        st.currentLockingInProgress = true → elapsedMs ≤ 1000 * 60 * 5 →
        (step st (Event.retryTimerFired fileId elapsedMs)).2
          = [Action.startLockJob fileId]) := by
  refine ⟨fun _ => rfl, stepMarkerEq, ?_, ?_⟩
  · intro itemFile events hall fileId elapsedMs
    have hm : (runTask itemFile events).1.currentLockingInProgress = false :=
      runMarkerFalse events (start (initialState itemFile)).1 rfl hall
    simp [step, folderLockedRetryTimerFired, hm]
  · intro st fileId elapsedMs h1 h2
    simp [step, folderLockedRetryTimerFired, h1, slotTryLock,
      Nat.not_lt.mpr h2]

/-- Witness for C10: on a concrete run whose lock attempt failed (no
successful lock response anywhere), the fired retry timer performs nothing;
and in a concrete state with the marker set, a timer firing within the
budget issues the lock request. -/
theorem lockMarkerMonotoneFromFalse_witness :
    (step (runTask "d/report.pdf"
        [Event.statusFetched "d" true,
         Event.idReceived "d" [] (fun _ => "fid"),
         Event.lockError "fid" 423]).1
      (Event.retryTimerFired "fid" 9999)).2 = [] ∧
    (step ({ itemFile := "d/report.pdf",
             currentLockingInProgress := true } : UploadState)
      (Event.retryTimerFired "fid" 9999)).2
      = [Action.startLockJob "fid"] :=
  ⟨lockMarkerMonotoneFromFalse.2.2.1 "d/report.pdf"
      [Event.statusFetched "d" true,
       Event.idReceived "d" [] (fun _ => "fid"),
       Event.lockError "fid" 423] (by decide) "fid" 9999,
   lockMarkerMonotoneFromFalse.2.2.2
      ({ itemFile := "d/report.pdf",
         currentLockingInProgress := true } : UploadState)
      "fid" 9999 rfl (by decide)⟩

end OCC
